import Mathlib

/-!
Shallow embedding of the counting core of `src/detector.py` (class `CarCounter`),
together with theorems settling the specification claims about it.

Conventions of the embedding:
* pixel coordinates are `ℤ` (Python ints), frame dimensions are `ℕ`;
* wall-clock times are `ℚ` (Python floats used only for comparison arithmetic);
* Python `int(x)` on a nonnegative product, and `//`, are floor operations,
  modelled with `Int.fdiv` / `Nat` division / truncating rational-to-int;
* Python sets and dicts are modelled as lists with set/assoc-list semantics;
* drawing calls (`cv2.*`) have no effect on counting state and are omitted;
* the YOLO model itself is an external collaborator: a frame's detections are
  the input of `process_frame`, mirroring `results[0].boxes`.
-/

namespace CctvMbz

/-- The `direction` string argument of `CarCounter._check_line_crossing`
(`'down'` or `'up'`). -/
inductive CrossDir
  | down
  | up
deriving DecidableEq

/-- The direction label chosen in detection (untracked) mode
(`'jakarta'` or `'bandung'`). -/
inductive Lane
  | jakarta
  | bandung
deriving DecidableEq

/-- The `self.counts` dictionary `{'mobil', 'jakarta', 'bandung'}`. -/
structure Counts where
  mobil : ℕ
  jakarta : ℕ
  bandung : ℕ
deriving DecidableEq

/-- An entry of `self.recent_cross_events`: `{t, x, y, direction}`. -/
structure CrossEvent where
  t : ℚ
  x : ℤ
  y : ℤ
  direction : Lane
deriving DecidableEq

/-- One box of `results[0].boxes` in tracking mode: `xyxy` coordinates plus the
persistent `id` (confidence is used only for drawing and is omitted). -/
structure TrackedDet where
  x1 : ℤ
  y1 : ℤ
  x2 : ℤ
  y2 : ℤ
  track_id : ℤ
deriving DecidableEq

/-- One box of `results[0].boxes` when no tracker ids are available. -/
structure UntrackedDet where
  x1 : ℤ
  y1 : ℤ
  x2 : ℤ
  y2 : ℤ
deriving DecidableEq

/-- Python dict lookup `m.get(k)` on an association list. -/
def lookupCenter : List (ℤ × ℤ) → ℤ → Option ℤ
  | [], _ => none
  | (k, v) :: rest, i => if k = i then some v else lookupCenter rest i

/-- Python dict assignment `m[k] = v` on an association list: replaces the
existing binding or appends a new one. -/
def storeCenter : List (ℤ × ℤ) → ℤ → ℤ → List (ℤ × ℤ)
  | [], i, v => [(i, v)]
  | (k, w) :: rest, i, v =>
      if k = i then (k, v) :: rest else (k, w) :: storeCenter rest i v

/-- Python `set.add` on a membership list. -/
def addId (l : List ℤ) (i : ℤ) : List ℤ :=
  if i ∈ l then l else l ++ [i]

/-- State of a `CarCounter` instance: exactly the mutable counting attributes
set in `CarCounter.__init__` (model/debug/display attributes omitted). -/
structure CarCounter where
  counted_ids : List ℤ
  previous_centers : List (ℤ × ℤ)
  counts : Counts
  line_y : Option ℤ
  tolerance : ℤ
  recent_cross_events : List CrossEvent
  event_timeout : ℚ
  roi_defined : Bool
  roi_points : List (ℤ × ℤ)
  frame_count : ℕ
deriving DecidableEq

/-- `CarCounter.__init__`: empty stores, zero counts, `line_y = None`,
`tolerance = 15`, `event_timeout = 3.0`, no ROI. -/
def initCarCounter : CarCounter :=
  { counted_ids := []
    previous_centers := []
    counts := ⟨0, 0, 0⟩
    line_y := none
    tolerance := 15
    recent_cross_events := []
    event_timeout := 3
    roi_defined := false
    roi_points := []
    frame_count := 0 }

/-- Python `int(q)` for a rational: truncation toward zero
(`num.tdiv den` since the denominator is positive). -/
def pyInt (q : ℚ) : ℤ := q.num.tdiv q.den

/-- `CarCounter.set_counting_line`: `self.line_y = int(frame_height * float(line_ratio))`.
No validation of `line_ratio` is performed by the code. -/
def set_counting_line (s : CarCounter) (frame_height : ℕ) (line_ratio : ℚ) : CarCounter :=
  { s with line_y := some (pyInt ((frame_height : ℚ) * line_ratio)) }

/-- `CarCounter.is_in_roi`: with no custom ROI, keep the point iff it is at
least `int(dim * 0.05)` away from every frame edge; with a custom ROI defined
the code returns `True` unconditionally. -/
def is_in_roi (s : CarCounter) (x y : ℤ) (frame_width frame_height : ℕ) : Bool :=
  if !s.roi_defined then
    ((((frame_width * 5 / 100 : ℕ) : ℤ) ≤ x && x ≤ (frame_width : ℤ) - ((frame_width * 5 / 100 : ℕ) : ℤ)) &&
      (((frame_height * 5 / 100 : ℕ) : ℤ) ≤ y && y ≤ (frame_height : ℤ) - ((frame_height * 5 / 100 : ℕ) : ℤ)))
  else
    true

/-- `CarCounter._check_line_crossing`: tolerance-band crossing test. -/
def check_line_crossing (s : CarCounter) (prev_y curr_y line_y : ℤ) (direction : CrossDir) : Bool :=
  match direction with
  | .down => prev_y < line_y - s.tolerance && curr_y > line_y + s.tolerance
  | .up => prev_y > line_y + s.tolerance && curr_y < line_y - s.tolerance

/-- Center coordinate `(a + b) // 2` (Python floor division). -/
def center (a b : ℤ) : ℤ := (a + b).fdiv 2

/-- The three-line counting block for the Jakarta direction:
`counts['jakarta'] += 1` followed by `counts['mobil'] = counts['jakarta'] + counts['bandung']`. -/
def bumpJakarta (c : Counts) : Counts :=
  ⟨c.jakarta + 1 + c.bandung, c.jakarta + 1, c.bandung⟩

/-- The counting block for the Bandung direction. -/
def bumpBandung (c : Counts) : Counts :=
  ⟨c.jakarta + (c.bandung + 1), c.jakarta, c.bandung + 1⟩

/-- `self.previous_centers[track_id] = cy`. -/
def updateCenters (s : CarCounter) (i cy : ℤ) : CarCounter :=
  { s with previous_centers := storeCenter s.previous_centers i cy }

/-- The crossing/counting block of `_process_tracking_mode` for one box, after
the new center has been stored: check down- then up-crossing, and count only
if `track_id not in self.counted_ids`. -/
def crossingUpdate (ly : ℤ) (prev_cy cy i : ℤ) (s : CarCounter) : CarCounter :=
  if check_line_crossing s prev_cy cy ly .down then
    if i ∈ s.counted_ids then s
    else { s with counts := bumpJakarta s.counts, counted_ids := addId s.counted_ids i }
  else if check_line_crossing s prev_cy cy ly .up then
    if i ∈ s.counted_ids then s
    else { s with counts := bumpBandung s.counts, counted_ids := addId s.counted_ids i }
  else s

/-- Loop body of `_process_tracking_mode` for one box: ROI filter, previous
center fetch-and-store, then crossing detection (only when a previous center
exists). -/
def procTrackedDet (frame_width frame_height : ℕ) (ly : ℤ) (s : CarCounter)
    (d : TrackedDet) : CarCounter :=
  if is_in_roi s (center d.x1 d.x2) (center d.y1 d.y2) frame_width frame_height then
    match lookupCenter s.previous_centers d.track_id with
    | none => updateCenters s d.track_id (center d.y1 d.y2)
    | some prev_cy =>
        crossingUpdate ly prev_cy (center d.y1 d.y2) d.track_id
          (updateCenters s d.track_id (center d.y1 d.y2))
  else s

/-- `is_duplicate_event` inside `_check_line_proximity_counting`: an event with
the same direction, within 100 px horizontally of the current center, and with
its stored `y` within `2 * tolerance` of the current line. -/
def is_duplicate_event (events : List CrossEvent) (line_y tolerance cx : ℤ)
    (direction : Lane) : Bool :=
  events.any fun e =>
    decide (e.direction = direction) && |e.x - cx| < 100 && |e.y - line_y| < tolerance * 2

/-- `CarCounter._check_line_proximity_counting`: proximity-band test, direction
from the horizontal half of the frame, dedup against recent events, then count
and append an event. -/
def check_line_proximity_counting (frame_width : ℕ) (ly : ℤ) (current_time : ℚ)
    (s : CarCounter) (cx cy : ℤ) : CarCounter :=
  if |cy - ly| ≤ s.tolerance then
    if cx < ((frame_width / 2 : ℕ) : ℤ) then
      if is_duplicate_event s.recent_cross_events ly s.tolerance cx .jakarta then s
      else
        { s with counts := bumpJakarta s.counts
                 recent_cross_events :=
                   s.recent_cross_events ++ [⟨current_time, cx, ly, .jakarta⟩] }
    else
      if is_duplicate_event s.recent_cross_events ly s.tolerance cx .bandung then s
      else
        { s with counts := bumpBandung s.counts
                 recent_cross_events :=
                   s.recent_cross_events ++ [⟨current_time, cx, ly, .bandung⟩] }
  else s

/-- Loop body of `_process_detection_mode` for one box: ROI filter then
proximity counting. -/
def procUntrackedDet (frame_width frame_height : ℕ) (ly : ℤ) (now : ℚ)
    (s : CarCounter) (d : UntrackedDet) : CarCounter :=
  if is_in_roi s (center d.x1 d.x2) (center d.y1 d.y2) frame_width frame_height then
    check_line_proximity_counting frame_width ly now s (center d.x1 d.x2) (center d.y1 d.y2)
  else s

/-- `CarCounter._process_detection_mode`: prune events older than
`event_timeout`, then process each box. -/
def process_detection_mode (frame_width frame_height : ℕ) (ly : ℤ) (now : ℚ)
    (s : CarCounter) (dets : List UntrackedDet) : CarCounter :=
  (dets.foldl (procUntrackedDet frame_width frame_height ly now))
    { s with recent_cross_events :=
        s.recent_cross_events.filter fun e => now - e.t < s.event_timeout }

/-- The detection input of one `process_frame` call: either `results[0].boxes`
is `None`, or boxes carry tracker ids (`boxes.id is not None`), or boxes come
without ids (detection fallback mode). -/
inductive FrameBoxes
  | noBoxes
  | tracked (dets : List TrackedDet)
  | untracked (dets : List UntrackedDet)

/-- The prologue of `process_frame`: `self.frame_count += 1` and, if
`self.line_y is None`, `self.set_counting_line(frame.shape[0])` at the default
ratio `0.5`. -/
def frameSetup (s : CarCounter) (frame_height : ℕ) : CarCounter :=
  match ({ s with frame_count := s.frame_count + 1 } : CarCounter).line_y with
  | none => set_counting_line { s with frame_count := s.frame_count + 1 } frame_height (1 / 2)
  | some _ => { s with frame_count := s.frame_count + 1 }

/-- `CarCounter.process_frame`: prologue, then dispatch on the boxes: tracking
mode when tracker ids are present, detection fallback mode otherwise. `now` is
the value `time.time()` observed by detection mode. -/
def process_frame (s : CarCounter) (frame_height frame_width : ℕ) (now : ℚ)
    (boxes : FrameBoxes) : CarCounter :=
  match (frameSetup s frame_height).line_y with
  | none => frameSetup s frame_height
  | some ly =>
      match boxes with
      | .noBoxes => frameSetup s frame_height
      | .tracked dets =>
          dets.foldl (procTrackedDet frame_width frame_height ly) (frameSetup s frame_height)
      | .untracked dets =>
          process_detection_mode frame_width frame_height ly now (frameSetup s frame_height) dets

/-- `CarCounter.reset_counter`. -/
def reset_counter (s : CarCounter) : CarCounter :=
  { s with counted_ids := []
           previous_centers := []
           recent_cross_events := []
           counts := ⟨0, 0, 0⟩
           frame_count := 0 }

/-- `CarCounter.set_roi`. -/
def set_roi (s : CarCounter) (points : List (ℤ × ℤ)) : CarCounter :=
  { s with roi_points := points, roi_defined := true }

/-- `CarCounter.get_count`. -/
def get_count (s : CarCounter) : Counts := s.counts

/-- The public operations a caller can perform on a `CarCounter` after
construction. -/
inductive Op
  | processFrame (frame_height frame_width : ℕ) (now : ℚ) (boxes : FrameBoxes)
  | resetCounter
  | setCountingLine (frame_height : ℕ) (ratio : ℚ)
  | setRoi (points : List (ℤ × ℤ))

/-- Apply one public operation. -/
def applyOp (s : CarCounter) : Op → CarCounter
  | .processFrame fh fw now boxes => process_frame s fh fw now boxes
  | .resetCounter => reset_counter s
  | .setCountingLine fh r => set_counting_line s fh r
  | .setRoi pts => set_roi s pts

/-- Run a sequence of public operations. -/
def runOps (s : CarCounter) (ops : List Op) : CarCounter := ops.foldl applyOp s

/-- `CarCounter.get_statistics` returns this dictionary. -/
structure Statistics where
  total_vehicles : ℕ
  jakarta_direction : ℕ
  bandung_direction : ℕ
  frames_processed : ℕ
  tracked_objects : ℕ
  recent_events : ℕ
  detection_rate : ℤ
deriving DecidableEq

/-- A Python runtime error surfaced by the embedding. -/
inductive PyRuntimeError
  | nameError (name : String)
deriving DecidableEq

/-- The value bound to the local name `detection_rate` inside
`CarCounter.get_statistics`: the method never assigns it, so looking it up
yields nothing. -/
def detectionRateBinding : Option ℤ := none

/-- `CarCounter.get_statistics`: builds the statistics dictionary. The entry
`'detection_rate': detection_rate if self.frame_count > 0 else 0` evaluates the
name `detection_rate` exactly when `frame_count > 0`; since that name is
unbound, the lookup raises `NameError` and the whole call fails. -/
def get_statistics (s : CarCounter) : Except PyRuntimeError Statistics :=
  if 0 < s.frame_count then
    match detectionRateBinding with
    | some v =>
        .ok ⟨s.counts.mobil, s.counts.jakarta, s.counts.bandung, s.frame_count,
          s.previous_centers.length, s.recent_cross_events.length, v⟩
    | none => .error (.nameError "detection_rate")
  else
    .ok ⟨s.counts.mobil, s.counts.jakarta, s.counts.bandung, s.frame_count,
      s.previous_centers.length, s.recent_cross_events.length, 0⟩

/-- Modelled from the spec: section 4.5 accepts custom ROI polygons with
"evaluation is point-in-polygon against the detection's center". The repository
contains no point-in-polygon routine at all (which is what claim C9 is about),
so the test is supplied here by the standard even-odd (crossing-number) rule:
one edge of the polygon crosses the horizontal ray from `(x, y)` toward
`+x`. An edge is counted when it straddles the level `y` and its intersection
with that level lies strictly to the right of `x` (stated by cross
multiplication to stay in integers). -/
def edgeCrossesRay (x y x1 y1 x2 y2 : ℤ) : Bool :=
  if y1 ≤ y ∧ y < y2 then 0 < (x1 - x) * (y2 - y1) + (x2 - x1) * (y - y1)
  else if y2 ≤ y ∧ y < y1 then 0 < (x - x1) * (y2 - y1) + (x1 - x2) * (y - y1)
  else false

/-- Modelled from the spec: the closed edge list of a polygon given by its
vertex list (each vertex joined to the next, the last back to the first). -/
def polygonEdges (poly : List (ℤ × ℤ)) : List ((ℤ × ℤ) × (ℤ × ℤ)) :=
  poly.zip (poly.rotate 1)

/-- Modelled from the spec: even-odd point-in-polygon test of `(x, y)` against
the vertex list `poly`. -/
def pointInPolygon (poly : List (ℤ × ℤ)) (x y : ℤ) : Bool :=
  ((polygonEdges poly).countP fun e => edgeCrossesRay x y e.1.1 e.1.2 e.2.1 e.2.2) % 2 = 1

/-- The derived-total invariant of the spec: the `'mobil'` entry equals the sum
of the two named directional counters. -/
def countsInv (s : CarCounter) : Prop :=
  s.counts.mobil = s.counts.jakarta + s.counts.bandung

/-- The sum of the named directional counters (the spec's
`sum(named counters)`). -/
def totalNamed (s : CarCounter) : ℕ := s.counts.jakarta + s.counts.bandung

/-- Number of counter increments attributed to track `i` while a list of
tracked detections is processed one by one: a detection contributes when it
carries `track_id = i` and processing it changed the named-counter sum. -/
def incrementsFor (fw fh : ℕ) (ly i : ℤ) : CarCounter → List TrackedDet → ℕ
  | _, [] => 0
  | s, d :: ds =>
      (if d.track_id = i ∧ totalNamed (procTrackedDet fw fh ly s d) ≠ totalNamed s then 1 else 0) +
        incrementsFor fw fh ly i (procTrackedDet fw fh ly s d) ds

/-- The dedup condition of the untracked fallback mode, worded as in the spec:
some crossing event with the same direction already exists within the spatial
x-window (100 px) and the y-window (2 × tolerance), and within the temporal
dedup window (`now - t < timeout`, the pruning age). -/
@[reducible] def dupEvent (events : List CrossEvent) (now timeout : ℚ) (ly tol cx : ℤ)
    (lane : Lane) : Prop :=
  ∃ e ∈ events,
    now - e.t < timeout ∧ e.direction = lane ∧ |e.x - cx| < 100 ∧ |e.y - ly| < tol * 2

/-- Concrete input of the C6 witness: the detection box used in both frames
(center `(100, 240)`, exactly on the default line of a 480-high frame). -/
def w6det : UntrackedDet := ⟨90, 230, 110, 250⟩

/-- Concrete state of the C6 witness: one untracked frame has been processed at
time 0, leaving one crossing event in the ledger. -/
def w6s : CarCounter :=
  runOps initCarCounter [.processFrame 480 640 0 (.untracked [w6det])]

/-- The claim C7 hypothesis, worded as in the spec: the center falls within the
default 5% edge margin of the frame. -/
@[reducible] def inEdgeMargin (x y : ℤ) (frame_width frame_height : ℕ) : Prop :=
  x < ((frame_width * 5 / 100 : ℕ) : ℤ) ∨ ((frame_width : ℤ) - ((frame_width * 5 / 100 : ℕ) : ℤ)) < x ∨
    y < ((frame_height * 5 / 100 : ℕ) : ℤ) ∨ ((frame_height : ℤ) - ((frame_height * 5 / 100 : ℕ) : ℤ)) < y

/-! ### Basic lemmas about the container operations -/

theorem addId_mem_self (l : List ℤ) (i : ℤ) : i ∈ addId l i := by
  unfold addId
  split
  · assumption
  · simp

theorem addId_mem_mono (l : List ℤ) (i j : ℤ) (h : j ∈ l) : j ∈ addId l i := by
  unfold addId
  split
  · exact h
  · simp [h]

theorem lookup_storeCenter (m : List (ℤ × ℤ)) (i v j : ℤ) :
    lookupCenter (storeCenter m i v) j = if j = i then some v else lookupCenter m j := by
  induction m with
  | nil =>
      simp only [storeCenter, lookupCenter]
      split_ifs with h1 h2 <;> first | rfl | omega
  | cons hd tl ih =>
      obtain ⟨k, w⟩ := hd
      by_cases hk : k = i
      · subst hk
        simp only [storeCenter, if_pos rfl, lookupCenter]
        split_ifs with h1 h2 <;> first | rfl | omega
      · simp only [storeCenter, if_neg hk, lookupCenter, ih]
        split_ifs with h1 h2 h3 <;> first | rfl | omega

theorem lookup_storeCenter_isSome (m : List (ℤ × ℤ)) (i v j : ℤ)
    (h : (lookupCenter m j).isSome) : (lookupCenter (storeCenter m i v) j).isSome := by
  rw [lookup_storeCenter]
  by_cases hj : j = i <;> simp [hj, h]

/-- Fold preservation: a property preserved by every step is preserved by the
whole fold. -/
theorem foldl_preserve {α : Type} {P : CarCounter → Prop} (f : CarCounter → α → CarCounter)
    (hf : ∀ s a, P s → P (f s a)) : ∀ (l : List α) (s : CarCounter), P s → P (l.foldl f s)
  | [], _, h => h
  | a :: l, s, h => foldl_preserve f hf l (f s a) (hf s a h)

/-! ### Case analyses of the per-detection steps -/

theorem crossingUpdate_cases (ly p c i : ℤ) (s : CarCounter) :
    crossingUpdate ly p c i s = s ∨
      (i ∉ s.counted_ids ∧
        (crossingUpdate ly p c i s =
            { s with counts := bumpJakarta s.counts, counted_ids := addId s.counted_ids i } ∨
          crossingUpdate ly p c i s =
            { s with counts := bumpBandung s.counts, counted_ids := addId s.counted_ids i })) := by
  unfold crossingUpdate
  split
  · split
    · left; rfl
    · right; exact ⟨by assumption, Or.inl rfl⟩
  · split
    · split
      · left; rfl
      · right; exact ⟨by assumption, Or.inr rfl⟩
    · left; rfl

theorem procTrackedDet_cases (fw fh : ℕ) (ly : ℤ) (s : CarCounter) (d : TrackedDet) :
    procTrackedDet fw fh ly s d = s ∨
      ((procTrackedDet fw fh ly s d).previous_centers =
          storeCenter s.previous_centers d.track_id (center d.y1 d.y2) ∧
        (((procTrackedDet fw fh ly s d).counts = s.counts ∧
            (procTrackedDet fw fh ly s d).counted_ids = s.counted_ids) ∨
          (d.track_id ∉ s.counted_ids ∧
            (procTrackedDet fw fh ly s d).counted_ids = addId s.counted_ids d.track_id ∧
            ((procTrackedDet fw fh ly s d).counts = bumpJakarta s.counts ∨
              (procTrackedDet fw fh ly s d).counts = bumpBandung s.counts)))) := by
  unfold procTrackedDet
  split
  · cases hl : lookupCenter s.previous_centers d.track_id with
    | none => right; exact ⟨rfl, Or.inl ⟨rfl, rfl⟩⟩
    | some p =>
        dsimp only
        rcases crossingUpdate_cases ly p (center d.y1 d.y2) d.track_id
            (updateCenters s d.track_id (center d.y1 d.y2)) with h1 | ⟨hnot, h2 | h2⟩
        · right
          rw [h1]
          exact ⟨rfl, Or.inl ⟨rfl, rfl⟩⟩
        · right
          rw [h2]
          exact ⟨rfl, Or.inr ⟨hnot, rfl, Or.inl rfl⟩⟩
        · right
          rw [h2]
          exact ⟨rfl, Or.inr ⟨hnot, rfl, Or.inr rfl⟩⟩
  · left; rfl

theorem proximity_cases (fw : ℕ) (ly : ℤ) (now : ℚ) (s : CarCounter) (cx cy : ℤ) :
    check_line_proximity_counting fw ly now s cx cy = s ∨
      check_line_proximity_counting fw ly now s cx cy =
        { s with counts := bumpJakarta s.counts
                 recent_cross_events := s.recent_cross_events ++ [⟨now, cx, ly, .jakarta⟩] } ∨
      check_line_proximity_counting fw ly now s cx cy =
        { s with counts := bumpBandung s.counts
                 recent_cross_events := s.recent_cross_events ++ [⟨now, cx, ly, .bandung⟩] } := by
  unfold check_line_proximity_counting
  split
  · split
    · split
      · left; rfl
      · right; left; rfl
    · split
      · left; rfl
      · right; right; rfl
  · left; rfl

theorem procUntrackedDet_cases (fw fh : ℕ) (ly : ℤ) (now : ℚ) (s : CarCounter)
    (d : UntrackedDet) :
    procUntrackedDet fw fh ly now s d = s ∨
      procUntrackedDet fw fh ly now s d =
        { s with counts := bumpJakarta s.counts
                 recent_cross_events :=
                   s.recent_cross_events ++ [⟨now, center d.x1 d.x2, ly, .jakarta⟩] } ∨
      procUntrackedDet fw fh ly now s d =
        { s with counts := bumpBandung s.counts
                 recent_cross_events :=
                   s.recent_cross_events ++ [⟨now, center d.x1 d.x2, ly, .bandung⟩] } := by
  unfold procUntrackedDet
  split
  · exact proximity_cases fw ly now s (center d.x1 d.x2) (center d.y1 d.y2)
  · left; rfl

/-! ### Preservation of the derived-total invariant -/

theorem countsInv_counts_eq {s t : CarCounter} (h : t.counts = s.counts) (hs : countsInv s) :
    countsInv t := by
  unfold countsInv at *
  rw [h]
  exact hs

theorem countsInv_bumpJakarta (s : CarCounter) (c : Counts) :
    countsInv { s with counts := bumpJakarta c } := by
  unfold countsInv bumpJakarta
  rfl

theorem countsInv_bumpBandung (s : CarCounter) (c : Counts) :
    countsInv { s with counts := bumpBandung c } := by
  unfold countsInv bumpBandung
  rfl

theorem countsInv_procTrackedDet (fw fh : ℕ) (ly : ℤ) (s : CarCounter) (d : TrackedDet)
    (h : countsInv s) : countsInv (procTrackedDet fw fh ly s d) := by
  rcases procTrackedDet_cases fw fh ly s d with heq | ⟨_, ⟨hc, _⟩ | ⟨_, _, hc | hc⟩⟩
  · rw [heq]; exact h
  · exact countsInv_counts_eq hc h
  · unfold countsInv
    rw [hc]
    unfold bumpJakarta
    rfl
  · unfold countsInv
    rw [hc]
    unfold bumpBandung
    rfl

theorem countsInv_procUntrackedDet (fw fh : ℕ) (ly : ℤ) (now : ℚ) (s : CarCounter)
    (d : UntrackedDet) (h : countsInv s) : countsInv (procUntrackedDet fw fh ly now s d) := by
  rcases procUntrackedDet_cases fw fh ly now s d with heq | heq | heq
  · rw [heq]; exact h
  · rw [heq]; unfold countsInv bumpJakarta; rfl
  · rw [heq]; unfold countsInv bumpBandung; rfl

theorem countsInv_frameSetup (s : CarCounter) (fh : ℕ) (h : countsInv s) :
    countsInv (frameSetup s fh) := by
  unfold frameSetup
  split <;> exact countsInv_counts_eq rfl h

theorem countsInv_process_detection_mode (fw fh : ℕ) (ly : ℤ) (now : ℚ) (s : CarCounter)
    (dets : List UntrackedDet) (h : countsInv s) :
    countsInv (process_detection_mode fw fh ly now s dets) := by
  unfold process_detection_mode
  exact foldl_preserve _ (fun t d ht => countsInv_procUntrackedDet fw fh ly now t d ht) dets _
    (countsInv_counts_eq rfl h)

theorem countsInv_process_frame (s : CarCounter) (fh fw : ℕ) (now : ℚ) (boxes : FrameBoxes)
    (h : countsInv s) : countsInv (process_frame s fh fw now boxes) := by
  unfold process_frame
  split
  · exact countsInv_frameSetup s fh h
  · cases boxes with
    | noBoxes => exact countsInv_frameSetup s fh h
    | tracked dets =>
        exact foldl_preserve _ (fun t d ht => countsInv_procTrackedDet fw fh _ t d ht) dets _
          (countsInv_frameSetup s fh h)
    | untracked dets =>
        exact countsInv_process_detection_mode fw fh _ now _ dets (countsInv_frameSetup s fh h)

theorem countsInv_applyOp (s : CarCounter) (op : Op) (h : countsInv s) :
    countsInv (applyOp s op) := by
  cases op with
  | processFrame fh fw now boxes => exact countsInv_process_frame s fh fw now boxes h
  | resetCounter => unfold countsInv applyOp reset_counter; rfl
  | setCountingLine fh r => exact countsInv_counts_eq rfl h
  | setRoi pts => exact countsInv_counts_eq rfl h

/-- C2: in every state reachable from construction by any sequence of public
operations (`process_frame` in either mode, `reset_counter`, and the
configuration calls), `counts['mobil'] = counts['jakarta'] + counts['bandung']`. -/
theorem total_equals_sum_invariant (ops : List Op) : countsInv (runOps initCarCounter ops) := by
  unfold runOps
  exact foldl_preserve applyOp countsInv_applyOp ops initCarCounter rfl

/-- C5: `reset_counter` zeroes all named counters and the total, clears the
track state store (previous centers and counted-id set) and the crossing-event
ledger, and is idempotent: resetting twice gives exactly the state of resetting
once. -/
theorem reset_zeroes_and_idempotent (s : CarCounter) :
    (reset_counter s).counts = ⟨0, 0, 0⟩ ∧
      (reset_counter s).counted_ids = [] ∧
      (reset_counter s).previous_centers = [] ∧
      (reset_counter s).recent_cross_events = [] ∧
      reset_counter (reset_counter s) = reset_counter s :=
  ⟨rfl, rfl, rfl, rfl, rfl⟩

/-! ### Frame prologue and single-count machinery -/

theorem frameSetup_of_some (s : CarCounter) (fh : ℕ) (ly : ℤ) (h : s.line_y = some ly) :
    frameSetup s fh = { s with frame_count := s.frame_count + 1 } := by
  unfold frameSetup
  split
  · next heq =>
      have h0 : s.line_y = none := heq
      rw [h] at h0
      cases h0
  · rfl

theorem counted_mem_procTrackedDet (fw fh : ℕ) (ly : ℤ) (s : CarCounter) (d : TrackedDet)
    (i : ℤ) (h : i ∈ s.counted_ids) : i ∈ (procTrackedDet fw fh ly s d).counted_ids := by
  rcases procTrackedDet_cases fw fh ly s d with heq | ⟨_, ⟨_, hc⟩ | ⟨_, hc, _⟩⟩
  · rw [heq]; exact h
  · rw [hc]; exact h
  · rw [hc]; exact addId_mem_mono _ _ _ h

theorem increment_marks (fw fh : ℕ) (ly : ℤ) (s : CarCounter) (d : TrackedDet)
    (h : totalNamed (procTrackedDet fw fh ly s d) ≠ totalNamed s) :
    d.track_id ∉ s.counted_ids ∧ d.track_id ∈ (procTrackedDet fw fh ly s d).counted_ids := by
  rcases procTrackedDet_cases fw fh ly s d with heq | ⟨_, ⟨hc, _⟩ | ⟨hnot, hid, _⟩⟩
  · exact absurd (by rw [heq]) h
  · exact absurd (by unfold totalNamed; rw [hc]) h
  · exact ⟨hnot, by rw [hid]; exact addId_mem_self _ _⟩

theorem incrementsFor_bound (fw fh : ℕ) (ly i : ℤ) (ds : List TrackedDet) :
    ∀ s : CarCounter, incrementsFor fw fh ly i s ds ≤ if i ∈ s.counted_ids then 0 else 1 := by
  induction ds with
  | nil =>
      intro s
      unfold incrementsFor
      split <;> omega
  | cons d ds ih =>
      intro s
      unfold incrementsFor
      by_cases hinc : d.track_id = i ∧
          totalNamed (procTrackedDet fw fh ly s d) ≠ totalNamed s
      · rw [if_pos hinc]
        obtain ⟨hid, hch⟩ := hinc
        obtain ⟨hnot, hmem⟩ := increment_marks fw fh ly s d hch
        have h1 := ih (procTrackedDet fw fh ly s d)
        rw [if_pos (hid ▸ hmem)] at h1
        rw [if_neg (hid ▸ hnot)]
        omega
      · rw [if_neg hinc]
        have h1 := ih (procTrackedDet fw fh ly s d)
        by_cases hmem : i ∈ s.counted_ids
        · rw [if_pos (counted_mem_procTrackedDet fw fh ly s d i hmem)] at h1
          rw [if_pos hmem]
          omega
        · rw [if_neg hmem]
          have h2 : incrementsFor fw fh ly i (procTrackedDet fw fh ly s d) ds ≤ 1 := by
            refine le_trans h1 ?_
            split <;> omega
          omega

/-- C1: tracked-mode single-count invariant. Over any list of tracked
detections processed in tracking mode (across any number of frames: the third
conjunct shows one tracking frame is exactly the per-detection fold, so a
session concatenates the frames' detection lists), at most one counter
increment is attributed to a given track id, and once the id is in
`counted_ids` every further crossing is a no-op on all counters. -/
theorem tracked_mode_single_count (fw fh : ℕ) (ly i : ℤ) (s : CarCounter)
    (ds : List TrackedDet) (now : ℚ) (hline : s.line_y = some ly) :
    incrementsFor fw fh ly i s ds ≤ 1 ∧
      (i ∈ s.counted_ids → incrementsFor fw fh ly i s ds = 0) ∧
      process_frame s fh fw now (.tracked ds) =
        ds.foldl (procTrackedDet fw fh ly) { s with frame_count := s.frame_count + 1 } := by
  refine ⟨?_, ?_, ?_⟩
  · refine le_trans (incrementsFor_bound fw fh ly i ds s) ?_
    split <;> omega
  · intro hmem
    have h1 := incrementsFor_bound fw fh ly i ds s
    rw [if_pos hmem] at h1
    omega
  · have hfs := frameSetup_of_some s fh ly hline
    unfold process_frame
    rw [hfs]
    have hl2 : ({ s with frame_count := s.frame_count + 1 } : CarCounter).line_y = some ly :=
      hline
    rw [hl2]

/-- Witness for C1 at a concrete state whose `counted_ids` already contains the
track id `5`, with an oscillating detection sequence for that id. -/
theorem tracked_mode_single_count_witness :
    incrementsFor 640 480 240 5 { initCarCounter with line_y := some 240, counted_ids := [5] }
        [⟨90, 190, 110, 210, 5⟩, ⟨90, 270, 110, 290, 5⟩, ⟨90, 190, 110, 210, 5⟩] ≤ 1 ∧
      incrementsFor 640 480 240 5 { initCarCounter with line_y := some 240, counted_ids := [5] }
        [⟨90, 190, 110, 210, 5⟩, ⟨90, 270, 110, 290, 5⟩, ⟨90, 190, 110, 210, 5⟩] = 0 ∧
      process_frame { initCarCounter with line_y := some 240, counted_ids := [5] } 480 640 0
          (.tracked [⟨90, 190, 110, 210, 5⟩, ⟨90, 270, 110, 290, 5⟩, ⟨90, 190, 110, 210, 5⟩]) =
        [⟨90, 190, 110, 210, 5⟩, ⟨90, 270, 110, 290, 5⟩,
            (⟨90, 190, 110, 210, 5⟩ : TrackedDet)].foldl (procTrackedDet 640 480 240)
          { ({ initCarCounter with line_y := some 240, counted_ids := [5] } : CarCounter) with
            frame_count :=
              ({ initCarCounter with line_y := some 240, counted_ids := [5] } : CarCounter).frame_count + 1 } := by
  have h := tracked_mode_single_count 640 480 240 5
    { initCarCounter with line_y := some 240, counted_ids := [5] }
    [⟨90, 190, 110, 210, 5⟩, ⟨90, 270, 110, 290, 5⟩, ⟨90, 190, 110, 210, 5⟩] 0 rfl
  exact ⟨h.1, h.2.1 (by decide), h.2.2⟩

/-- C3: the tolerance-band crossing test. The first two conjuncts characterise
the detector exactly as the spec words it; the next three settle the two
concrete moves of the claim (full jump across the band is a crossing, a move
inside the band is not, in either direction); the last two show that on a
first sighting (no stored previous center) processing the detection changes no
counter and marks nothing as counted. -/
theorem crossing_tolerance_band (fw fh : ℕ) (ly prev curr : ℤ) (s : CarCounter)
    (d : TrackedDet) (htol : 0 < s.tolerance)
    (hfirst : lookupCenter s.previous_centers d.track_id = none) :
    (check_line_crossing s prev curr ly .down = true ↔
        (prev < ly - s.tolerance ∧ curr > ly + s.tolerance)) ∧
      (check_line_crossing s prev curr ly .up = true ↔
        (prev > ly + s.tolerance ∧ curr < ly - s.tolerance)) ∧
      check_line_crossing s (ly - s.tolerance - 1) (ly + s.tolerance + 1) ly .down = true ∧
      check_line_crossing s (ly - s.tolerance + 1) (ly + s.tolerance - 1) ly .down = false ∧
      check_line_crossing s (ly - s.tolerance + 1) (ly + s.tolerance - 1) ly .up = false ∧
      (procTrackedDet fw fh ly s d).counts = s.counts ∧
      (procTrackedDet fw fh ly s d).counted_ids = s.counted_ids := by
  have hstep : (procTrackedDet fw fh ly s d).counts = s.counts ∧
      (procTrackedDet fw fh ly s d).counted_ids = s.counted_ids := by
    unfold procTrackedDet
    split
    · simp only [hfirst]
      exact ⟨rfl, rfl⟩
    · exact ⟨rfl, rfl⟩
  refine ⟨?_, ?_, ?_, ?_, ?_, hstep.1, hstep.2⟩
  · unfold check_line_crossing
    simp [decide_eq_true_eq]
  · unfold check_line_crossing
    simp [decide_eq_true_eq]
  · unfold check_line_crossing
    simp only [Bool.and_eq_true, decide_eq_true_eq]
    omega
  · unfold check_line_crossing
    simp only [Bool.and_eq_false_iff, decide_eq_false_iff_not]
    omega
  · unfold check_line_crossing
    simp only [Bool.and_eq_false_iff, decide_eq_false_iff_not]
    omega

/-- Witness for C3 at the spec's scenario values: `line_y = 240`,
`tolerance = 15`, a move from `200` to `280`, and a first-sighting detection
on the fresh state. -/
theorem crossing_tolerance_band_witness :
    (check_line_crossing initCarCounter 200 280 240 .down = true ↔
        (200 < 240 - initCarCounter.tolerance ∧ 280 > 240 + initCarCounter.tolerance)) ∧
      (check_line_crossing initCarCounter 200 280 240 .up = true ↔
        (200 > 240 + initCarCounter.tolerance ∧ 280 < 240 - initCarCounter.tolerance)) ∧
      check_line_crossing initCarCounter (240 - initCarCounter.tolerance - 1)
        (240 + initCarCounter.tolerance + 1) 240 .down = true ∧
      check_line_crossing initCarCounter (240 - initCarCounter.tolerance + 1)
        (240 + initCarCounter.tolerance - 1) 240 .down = false ∧
      check_line_crossing initCarCounter (240 - initCarCounter.tolerance + 1)
        (240 + initCarCounter.tolerance - 1) 240 .up = false ∧
      (procTrackedDet 640 480 240 initCarCounter ⟨90, 190, 110, 210, 1⟩).counts =
        initCarCounter.counts ∧
      (procTrackedDet 640 480 240 initCarCounter ⟨90, 190, 110, 210, 1⟩).counted_ids =
        initCarCounter.counted_ids :=
  crossing_tolerance_band 640 480 240 200 280 initCarCounter ⟨90, 190, 110, 210, 1⟩
    (by decide) rfl

/-! ### Track-store persistence (no eviction exists in the code) -/

theorem prev_mono_procTrackedDet (fw fh : ℕ) (ly : ℤ) (s : CarCounter) (d : TrackedDet)
    (j : ℤ) (h : (lookupCenter s.previous_centers j).isSome = true) :
    (lookupCenter (procTrackedDet fw fh ly s d).previous_centers j).isSome = true := by
  rcases procTrackedDet_cases fw fh ly s d with heq | ⟨hp, _⟩
  · rw [heq]; exact h
  · rw [hp]; exact lookup_storeCenter_isSome _ _ _ _ h

theorem prev_counted_procUntrackedDet (fw fh : ℕ) (ly : ℤ) (now : ℚ) (s : CarCounter)
    (d : UntrackedDet) :
    (procUntrackedDet fw fh ly now s d).previous_centers = s.previous_centers ∧
      (procUntrackedDet fw fh ly now s d).counted_ids = s.counted_ids := by
  rcases procUntrackedDet_cases fw fh ly now s d with heq | heq | heq <;> rw [heq] <;>
    exact ⟨rfl, rfl⟩

theorem frameSetup_fields (s : CarCounter) (fh : ℕ) :
    (frameSetup s fh).previous_centers = s.previous_centers ∧
      (frameSetup s fh).counted_ids = s.counted_ids := by
  unfold frameSetup
  split <;> exact ⟨rfl, rfl⟩

theorem detection_mode_fields (fw fh : ℕ) (ly : ℤ) (now : ℚ) (s : CarCounter)
    (dets : List UntrackedDet) :
    (process_detection_mode fw fh ly now s dets).previous_centers = s.previous_centers ∧
      (process_detection_mode fw fh ly now s dets).counted_ids = s.counted_ids := by
  unfold process_detection_mode
  refine @foldl_preserve UntrackedDet
    (fun t => t.previous_centers = s.previous_centers ∧ t.counted_ids = s.counted_ids) _
    (fun t u ht => ?_) dets _ ⟨rfl, rfl⟩
  have h := prev_counted_procUntrackedDet fw fh ly now t u
  exact ⟨h.1.trans ht.1, h.2.trans ht.2⟩

/-- C4 (amended): the code performs no stale-track eviction. No last-seen
timestamps are kept, and processing a frame never removes an entry from
`previous_centers` nor an id from `counted_ids`, regardless of the elapsed
wall-clock time; entries disappear only through `reset_counter`. Hence a track
id that reappears after any silence still carries its old center and counted
status. -/
theorem no_stale_track_eviction (s : CarCounter) (fh fw : ℕ) (now : ℚ)
    (boxes : FrameBoxes) (j : ℤ) :
    ((lookupCenter s.previous_centers j).isSome = true →
      (lookupCenter (process_frame s fh fw now boxes).previous_centers j).isSome = true) ∧
      (j ∈ s.counted_ids → j ∈ (process_frame s fh fw now boxes).counted_ids) := by
  unfold process_frame
  split
  · constructor
    · intro h; rw [(frameSetup_fields s fh).1]; exact h
    · intro h; rw [(frameSetup_fields s fh).2]; exact h
  · cases boxes with
    | noBoxes =>
        constructor
        · intro h; rw [(frameSetup_fields s fh).1]; exact h
        · intro h; rw [(frameSetup_fields s fh).2]; exact h
    | tracked dets =>
        constructor
        · intro h
          refine @foldl_preserve TrackedDet
            (fun t => (lookupCenter t.previous_centers j).isSome = true) _
            (fun t u ht => prev_mono_procTrackedDet fw fh _ t u j ht) dets _ ?_
          dsimp only
          rw [(frameSetup_fields s fh).1]; exact h
        · intro h
          refine @foldl_preserve TrackedDet (fun t => j ∈ t.counted_ids) _
            (fun t u ht => counted_mem_procTrackedDet fw fh _ t u j ht) dets _ ?_
          dsimp only
          rw [(frameSetup_fields s fh).2]; exact h
    | untracked dets =>
        rename_i ly' heq'
        have hd := detection_mode_fields fw fh ly' now (frameSetup s fh) dets
        constructor
        · intro h; rw [hd.1, (frameSetup_fields s fh).1]; exact h
        · intro h; rw [hd.2, (frameSetup_fields s fh).2]; exact h

/-! ### ROI filtering -/

theorem is_in_roi_false_of_margin (s : CarCounter) (x y : ℤ) (fw fh : ℕ)
    (hroi : s.roi_defined = false) (h : inEdgeMargin x y fw fh) :
    is_in_roi s x y fw fh = false := by
  unfold is_in_roi
  rw [hroi]
  unfold inEdgeMargin at h
  simp only [Bool.not_false, if_true, Bool.and_eq_false_iff, decide_eq_false_iff_not, not_le]
  omega

/-- C7: with no custom ROI configured, a detection whose center falls within
the default 5% edge margin is a complete no-op in both modes: the per-detection
step returns the state unchanged (no track-state update, no counter increment,
no event), even when its coordinates would satisfy the crossing or proximity
test. -/
theorem roi_margin_exclusion (s : CarCounter) (fw fh : ℕ) (ly : ℤ) (now : ℚ)
    (d : TrackedDet) (u : UntrackedDet) (hroi : s.roi_defined = false)
    (hd : inEdgeMargin (center d.x1 d.x2) (center d.y1 d.y2) fw fh)
    (hu : inEdgeMargin (center u.x1 u.x2) (center u.y1 u.y2) fw fh) :
    procTrackedDet fw fh ly s d = s ∧ procUntrackedDet fw fh ly now s u = s := by
  constructor
  · unfold procTrackedDet
    rw [is_in_roi_false_of_margin s _ _ fw fh hroi hd]
    simp
  · unfold procUntrackedDet
    rw [is_in_roi_false_of_margin s _ _ fw fh hroi hu]
    simp

/-! ### Line configuration and custom ROI -/

/-- C8 (amended): `set_counting_line` performs no range validation and never
fails: for every ratio, including those outside `[0, 1]`, it returns normally
with `line_y = int(frame_height * float(line_ratio))` — the out-of-range ratio
is neither rejected nor clamped, and the rest of the state is untouched. -/
theorem set_counting_line_no_validation (s : CarCounter) (fh : ℕ) (r : ℚ)
    (_hr : r < 0 ∨ 1 < r) :
    (set_counting_line s fh r).line_y = some (pyInt ((fh : ℚ) * r)) ∧
      set_counting_line s fh r = { s with line_y := some (pyInt ((fh : ℚ) * r)) } :=
  ⟨rfl, rfl⟩

/-- C9 (amended): after `set_roi`, `is_in_roi` returns `True` for every point:
the stored polygon is never consulted, so a custom ROI never excludes any
detection, whatever its center. -/
theorem custom_roi_never_excludes (s : CarCounter) (pts : List (ℤ × ℤ)) (x y : ℤ)
    (fw fh : ℕ) : is_in_roi (set_roi s pts) x y fw fh = true :=
  rfl

/-! ### get_statistics -/

/-- C10: `get_statistics` is partial. Whenever at least one frame has been
processed it evaluates the unbound local name `detection_rate` and raises
`NameError`; only with `frame_count = 0` does it return the statistics
dictionary, whose `detection_rate` entry is `0`. -/
theorem get_statistics_name_error (s : CarCounter) :
    (0 < s.frame_count → get_statistics s = .error (.nameError "detection_rate")) ∧
      (s.frame_count = 0 →
        get_statistics s =
          .ok ⟨s.counts.mobil, s.counts.jakarta, s.counts.bandung, s.frame_count,
            s.previous_centers.length, s.recent_cross_events.length, 0⟩) := by
  constructor
  · intro h
    unfold get_statistics
    rw [if_pos h]
    rfl
  · intro h
    unfold get_statistics
    rw [if_neg (by omega)]

/-! ### Untracked fallback dedup -/

theorem is_duplicate_on_pruned (events : List CrossEvent) (now timeout : ℚ)
    (ly tol cx : ℤ) (lane : Lane) :
    is_duplicate_event (events.filter fun e => now - e.t < timeout) ly tol cx lane = true ↔
      dupEvent events now timeout ly tol cx lane := by
  unfold is_duplicate_event dupEvent
  simp only [List.any_eq_true, List.mem_filter, Bool.and_eq_true, decide_eq_true_eq]
  constructor
  · rintro ⟨e, ⟨he, ht⟩, ⟨hd, hx⟩, hy⟩
    exact ⟨e, he, ht, hd, hx, hy⟩
  · rintro ⟨e, he, ht, hd, hx, hy⟩
    exact ⟨e, ⟨he, ht⟩, ⟨hd, hx⟩, hy⟩

/-- C6 (amended): one frame of detection (untracked) mode, for one detection.
Writing `cx, cy` for the detection's center, `pruned` for the ledger with
events older than `event_timeout` (3 seconds by default — not ≤ 1 second as
the claim stated) removed, and taking the lane from the horizontal half of the
frame (left half → `'jakarta'`, otherwise `'bandung'`): an ineligible detection
(outside the ROI or outside the tolerance band) changes no counter; an
eligible one is suppressed exactly when a crossing event with the same
direction exists within the 100 px x-window, the `2 × tolerance` y-window and
the temporal window; otherwise exactly the chosen counter is incremented and
one event for `now` is appended. In every case the ledger was pruned by age
first. -/
theorem detection_mode_dedup (s : CarCounter) (fh fw : ℕ) (now : ℚ) (d : UntrackedDet)
    (ly : ℤ) (hline : s.line_y = some ly) :
    (¬(is_in_roi s (center d.x1 d.x2) (center d.y1 d.y2) fw fh = true ∧
          |center d.y1 d.y2 - ly| ≤ s.tolerance) →
        (process_frame s fh fw now (.untracked [d])).counts = s.counts ∧
          (process_frame s fh fw now (.untracked [d])).recent_cross_events =
            s.recent_cross_events.filter fun e => now - e.t < s.event_timeout) ∧
      ((is_in_roi s (center d.x1 d.x2) (center d.y1 d.y2) fw fh = true ∧
            |center d.y1 d.y2 - ly| ≤ s.tolerance) →
        dupEvent s.recent_cross_events now s.event_timeout ly s.tolerance (center d.x1 d.x2)
            (if center d.x1 d.x2 < ((fw / 2 : ℕ) : ℤ) then Lane.jakarta else Lane.bandung) →
        (process_frame s fh fw now (.untracked [d])).counts = s.counts ∧
          (process_frame s fh fw now (.untracked [d])).recent_cross_events =
            s.recent_cross_events.filter fun e => now - e.t < s.event_timeout) ∧
      ((is_in_roi s (center d.x1 d.x2) (center d.y1 d.y2) fw fh = true ∧
            |center d.y1 d.y2 - ly| ≤ s.tolerance) →
        ¬dupEvent s.recent_cross_events now s.event_timeout ly s.tolerance (center d.x1 d.x2)
            (if center d.x1 d.x2 < ((fw / 2 : ℕ) : ℤ) then Lane.jakarta else Lane.bandung) →
        center d.x1 d.x2 < ((fw / 2 : ℕ) : ℤ) →
        (process_frame s fh fw now (.untracked [d])).counts = bumpJakarta s.counts ∧
          (process_frame s fh fw now (.untracked [d])).recent_cross_events =
            (s.recent_cross_events.filter fun e => now - e.t < s.event_timeout) ++
              [⟨now, center d.x1 d.x2, ly, .jakarta⟩]) ∧
      ((is_in_roi s (center d.x1 d.x2) (center d.y1 d.y2) fw fh = true ∧
            |center d.y1 d.y2 - ly| ≤ s.tolerance) →
        ¬dupEvent s.recent_cross_events now s.event_timeout ly s.tolerance (center d.x1 d.x2)
            (if center d.x1 d.x2 < ((fw / 2 : ℕ) : ℤ) then Lane.jakarta else Lane.bandung) →
        ¬(center d.x1 d.x2 < ((fw / 2 : ℕ) : ℤ)) →
        (process_frame s fh fw now (.untracked [d])).counts = bumpBandung s.counts ∧
          (process_frame s fh fw now (.untracked [d])).recent_cross_events =
            (s.recent_cross_events.filter fun e => now - e.t < s.event_timeout) ++
              [⟨now, center d.x1 d.x2, ly, .bandung⟩]) := by
  have hred : process_frame s fh fw now (.untracked [d]) =
      procUntrackedDet fw fh ly now
        { s with frame_count := s.frame_count + 1
                 recent_cross_events :=
                   s.recent_cross_events.filter fun e => now - e.t < s.event_timeout } d := by
    unfold process_frame
    rw [frameSetup_of_some s fh ly hline]
    rw [show ({ s with frame_count := s.frame_count + 1 } : CarCounter).line_y = some ly from
      hline]
    rfl
  rw [hred]
  unfold procUntrackedDet
  rw [show is_in_roi
      { s with frame_count := s.frame_count + 1
               recent_cross_events :=
                 s.recent_cross_events.filter fun e => now - e.t < s.event_timeout }
      (center d.x1 d.x2) (center d.y1 d.y2) fw fh =
      is_in_roi s (center d.x1 d.x2) (center d.y1 d.y2) fw fh from rfl]
  by_cases hroi : is_in_roi s (center d.x1 d.x2) (center d.y1 d.y2) fw fh = true
  · rw [if_pos hroi]
    unfold check_line_proximity_counting
    dsimp only
    by_cases hband : |center d.y1 d.y2 - ly| ≤ s.tolerance
    · rw [if_pos hband]
      by_cases hcx : center d.x1 d.x2 < ((fw / 2 : ℕ) : ℤ)
      · rw [if_pos hcx]
        by_cases hdup : dupEvent s.recent_cross_events now s.event_timeout ly s.tolerance
            (center d.x1 d.x2) Lane.jakarta
        · rw [if_pos ((is_duplicate_on_pruned s.recent_cross_events now s.event_timeout ly
            s.tolerance (center d.x1 d.x2) Lane.jakarta).mpr hdup)]
          refine ⟨fun hne => absurd ⟨hroi, hband⟩ hne, fun _ _ => ⟨rfl, rfl⟩,
            fun _ hnd _ => ?_, fun _ _ hncx => absurd hcx hncx⟩
          rw [if_pos hcx] at hnd
          exact absurd hdup hnd
        · rw [if_neg (fun hb => hdup ((is_duplicate_on_pruned s.recent_cross_events now
            s.event_timeout ly s.tolerance (center d.x1 d.x2) Lane.jakarta).mp hb))]
          refine ⟨fun hne => absurd ⟨hroi, hband⟩ hne, fun _ hd2 => ?_,
            fun _ _ _ => ⟨rfl, rfl⟩, fun _ _ hncx => absurd hcx hncx⟩
          rw [if_pos hcx] at hd2
          exact absurd hd2 hdup
      · rw [if_neg hcx]
        by_cases hdup : dupEvent s.recent_cross_events now s.event_timeout ly s.tolerance
            (center d.x1 d.x2) Lane.bandung
        · rw [if_pos ((is_duplicate_on_pruned s.recent_cross_events now s.event_timeout ly
            s.tolerance (center d.x1 d.x2) Lane.bandung).mpr hdup)]
          refine ⟨fun hne => absurd ⟨hroi, hband⟩ hne, fun _ _ => ⟨rfl, rfl⟩,
            fun _ _ hcx2 => absurd hcx2 hcx, fun _ hnd _ => ?_⟩
          rw [if_neg hcx] at hnd
          exact absurd hdup hnd
        · rw [if_neg (fun hb => hdup ((is_duplicate_on_pruned s.recent_cross_events now
            s.event_timeout ly s.tolerance (center d.x1 d.x2) Lane.bandung).mp hb))]
          refine ⟨fun hne => absurd ⟨hroi, hband⟩ hne, fun _ hd2 => ?_,
            fun _ _ hcx2 => absurd hcx2 hcx, fun _ _ _ => ⟨rfl, rfl⟩⟩
          rw [if_neg hcx] at hd2
          exact absurd hd2 hdup
    · rw [if_neg hband]
      exact ⟨fun _ => ⟨rfl, rfl⟩, fun he => absurd he.2 hband, fun he => absurd he.2 hband,
        fun he => absurd he.2 hband⟩
  · rw [if_neg hroi]
    exact ⟨fun _ => ⟨rfl, rfl⟩, fun he => absurd he.1 hroi, fun he => absurd he.1 hroi,
      fun he => absurd he.1 hroi⟩

/-! ### Concrete witnesses and counterexamples

The rational-arithmetic primitives are `@[irreducible]` in the library; they
are made semireducible locally so that the kernel can evaluate the concrete
runs below. -/

section ConcreteRuns

attribute [local semireducible] Rat.add Rat.sub Rat.mul Rat.inv

/-- Witness for C4's amended statement: the state holds track id 1 (center
200, already counted); a frame arriving at time 1000 still leaves both
entries in place. -/
theorem no_stale_track_eviction_witness :
    (lookupCenter (process_frame
        { initCarCounter with line_y := some 240
                              previous_centers := [(1, 200)]
                              counted_ids := [1] } 480 640 1000 .noBoxes).previous_centers
        1).isSome = true ∧
      1 ∈ (process_frame
        { initCarCounter with line_y := some 240
                              previous_centers := [(1, 200)]
                              counted_ids := [1] } 480 640 1000 .noBoxes).counted_ids := by
  have h := no_stale_track_eviction
    { initCarCounter with line_y := some 240
                          previous_centers := [(1, 200)]
                          counted_ids := [1] } 480 640 1000 .noBoxes 1
  exact ⟨h.1 (by decide), h.2 (by decide)⟩

/-- Counterexample to C4 as stated: track id 1 is seen at wall-clock time 0;
the next frame arrives 1000 seconds later, far beyond the 2–3 s timeout the
claim names, so by the claim the id should have been evicted and its
reappearance treated as a new, uncounted track (no previous position, hence no
crossing). Instead the code still holds the stale center, matches the
reappearing id against it, counts a crossing (`jakarta = 1`), and keeps the id
in both stores. -/
theorem stale_track_eviction_counterexample :
    (3 : ℚ) < 1000 - 0 ∧
      (runOps initCarCounter
          [.processFrame 480 640 0 (.tracked [⟨90, 190, 110, 210, 1⟩]),
           .processFrame 480 640 1000 (.tracked [⟨90, 270, 110, 290, 1⟩])]).counts.jakarta = 1 ∧
      lookupCenter (runOps initCarCounter
          [.processFrame 480 640 0 (.tracked [⟨90, 190, 110, 210, 1⟩]),
           .processFrame 480 640 1000 (.tracked [⟨90, 270, 110, 290, 1⟩])]).previous_centers 1 =
        some 280 ∧
      1 ∈ (runOps initCarCounter
          [.processFrame 480 640 0 (.tracked [⟨90, 190, 110, 210, 1⟩]),
           .processFrame 480 640 1000 (.tracked [⟨90, 270, 110, 290, 1⟩])]).counted_ids := by
  exact ⟨by decide, by decide, by decide, by decide⟩

/-- Witness for C6's amended statement, in the suppression case: after one
untracked detection at time 0, the identical detection at time 2 is suppressed
because the 2-second-old event is still inside the 3-second window. -/
theorem detection_mode_dedup_witness :
    (process_frame w6s 480 640 2 (.untracked [w6det])).counts = w6s.counts ∧
      (process_frame w6s 480 640 2 (.untracked [w6det])).recent_cross_events =
        w6s.recent_cross_events.filter fun e => (2 : ℚ) - e.t < w6s.event_timeout := by
  have h := detection_mode_dedup w6s 480 640 2 w6det 240 (by decide)
  exact h.2.1 ⟨by decide, by decide⟩ (by decide)

/-- Counterexample to C6 as stated: the only ledger event is 2 seconds old at
the second frame, i.e. outside the claim's "default ≤ 1 second" temporal
window, so by the claim the second detection should be counted
(`jakarta = 2`). The code's window is `event_timeout = 3.0` seconds, so the
count is suppressed and `jakarta` stays 1. -/
theorem detection_dedup_window_counterexample :
    (1 : ℚ) < 2 - 0 ∧
      w6s.recent_cross_events = [⟨0, 100, 240, .jakarta⟩] ∧
      w6s.counts.jakarta = 1 ∧
      (runOps w6s [.processFrame 480 640 2 (.untracked [w6det])]).counts.jakarta = 1 := by
  exact ⟨by decide, by decide, by decide, by decide⟩

/-- Witness for C7: a box with center `(10, 10)` in a 640 × 480 frame lies
inside the 5% margin (32 px and 24 px), and its processing is the identity in
both modes. -/
theorem roi_margin_exclusion_witness :
    procTrackedDet 640 480 240 initCarCounter ⟨0, 0, 20, 20, 1⟩ = initCarCounter ∧
      procUntrackedDet 640 480 240 0 initCarCounter ⟨0, 0, 20, 20⟩ = initCarCounter :=
  roi_margin_exclusion initCarCounter 640 480 240 0 ⟨0, 0, 20, 20, 1⟩ ⟨0, 0, 20, 20⟩ rfl
    (by decide) (by decide)

/-- Witness for C8's amended statement at the out-of-range ratio `1.5`. -/
theorem set_counting_line_no_validation_witness :
    (set_counting_line initCarCounter 480 (3 / 2)).line_y = some (pyInt ((480 : ℚ) * (3 / 2))) ∧
      set_counting_line initCarCounter 480 (3 / 2) =
        { initCarCounter with line_y := some (pyInt ((480 : ℚ) * (3 / 2))) } :=
  set_counting_line_no_validation initCarCounter 480 (3 / 2) (Or.inr (by decide))

/-- Counterexample to C8 as stated: the ratio `1.5` lies outside `[0, 1]`, yet
configuring the line neither fails nor clamps — it produces the usable
(off-frame) line position `y = 720` for a 480-pixel-high frame. -/
theorem ratio_fail_fast_counterexample :
    (1 : ℚ) < 3 / 2 ∧
      (runOps initCarCounter [.setCountingLine 480 (3 / 2)]).line_y = some 720 := by
  exact ⟨by decide, by decide⟩

/-- Counterexample to C9 as stated: a custom ROI square `[0, 10] × [0, 10]` is
configured, and a track whose centers `(100, 200)` and `(100, 280)` lie far
outside that polygon (shown by the spec-modelled even-odd test) is nonetheless
eligible and gets counted — `is_in_roi` never consults the stored polygon. -/
theorem point_in_polygon_counterexample :
    pointInPolygon [(0, 0), (10, 0), (10, 10), (0, 10)] 100 200 = false ∧
      pointInPolygon [(0, 0), (10, 0), (10, 10), (0, 10)] 100 280 = false ∧
      (runOps initCarCounter
          [.setCountingLine 480 (1 / 2),
           .setRoi [(0, 0), (10, 0), (10, 10), (0, 10)],
           .processFrame 480 640 0 (.tracked [⟨90, 190, 110, 210, 7⟩]),
           .processFrame 480 640 0 (.tracked [⟨90, 270, 110, 290, 7⟩])]).counts.jakarta = 1 := by
  exact ⟨by decide, by decide, by decide⟩

/-- Witness for C10: after three frames `get_statistics` fails with the
`NameError`; on the fresh instance it returns the zero statistics. -/
theorem get_statistics_name_error_witness :
    get_statistics { initCarCounter with frame_count := 3 } =
        .error (.nameError "detection_rate") ∧
      get_statistics initCarCounter = .ok ⟨0, 0, 0, 0, 0, 0, 0⟩ := by
  constructor
  · exact (get_statistics_name_error { initCarCounter with frame_count := 3 }).1 (by decide)
  · exact (get_statistics_name_error initCarCounter).2 rfl

end ConcreteRuns

end CctvMbz
